import Mathlib

/-!
Shallow embedding of the ManualStudio job state machine and versioned
artifact pipeline (backend/app/api/routes.py, backend/app/db/models.py,
backend/app/services/llm.py), together with proofs about the claims of
the natural-language specification.

Conventions:
* `Option` models SQL nullable columns and Python `None`.
* Each FastAPI route is a pure function from its inputs and the relevant
  database/storage state to a result (`Except HttpErr …`) and the state
  after the handler returns; collaborator outcomes (S3 upload, Celery
  dispatch, S3 delete) are passed in as booleans, mirroring the
  corresponding `try/except` blocks in the source.
* `Json` models the Python/JSON values handled by `jsonschema.validate`;
  `Json.float` stands for a non-integral JSON number (the schema never
  inspects the value of such a number, only its type).
-/

namespace ManualStudio

/-- The `JobStatus` enumeration from `app/db/models.py`. -/
inductive JobStatus
  | QUEUED
  | RUNNING
  | SUCCEEDED
  | FAILED
  | CANCELED
deriving DecidableEq, Repr

/-- The `.value` string of a `JobStatus`, as used in error details. -/
def JobStatus.value : JobStatus → String
  | .QUEUED => "QUEUED"
  | .RUNNING => "RUNNING"
  | .SUCCEEDED => "SUCCEEDED"
  | .FAILED => "FAILED"
  | .CANCELED => "CANCELED"

/-- The `Job` row of `app/db/models.py` (columns relevant to the core). -/
structure Job where
  status : JobStatus
  stage : Option String := none
  progress : Nat := 0
  title : Option String := none
  goal : Option String := none
  language : String := "ja"
  inputVideoUri : Option String := none
  audioUri : Option String := none
  stepsJsonUri : Option String := none
  pptxUri : Option String := none
  framesPrefixUri : Option String := none
  currentStepsVersion : Nat := 1
  errorCode : Option String := none
  errorMessage : Option String := none
  traceId : Option String := none
deriving DecidableEq, Repr

/-- JSON values, as handled by `jsonschema.validate` in `app/services/llm.py`.
`float` stands for a non-integral number; the steps schema only ever checks
the *type* of such a number, never its value. -/
inductive Json
  | null
  | bool (b : Bool)
  | int (n : Int)
  | float
  | str (s : String)
  | arr (elems : List Json)
  | obj (fields : List (String × Json))

/-- Key lookup in a JSON object (Python dict access; keys are unique). -/
def lookupField : List (String × Json) → String → Option Json
  | [], _ => none
  | (k, v) :: rest, key => if k = key then some v else lookupField rest key

/-- A `"type": "string"` check. -/
def strCheck : Json → Bool
  | .str _ => true
  | _ => false

/-- A `"type": "number"` check (integral or not). -/
def numCheck : Json → Bool
  | .int _ => true
  | .float => true
  | _ => false

/-- The anchored regex `^[0-9]{2}:[0-9]{2}$` of the steps schema:
exactly two digits, a colon, two digits. -/
def mmss (s : String) : Bool :=
  match s.data with
  | [a, b, c, d, e] => a.isDigit && b.isDigit && (c = ':') && d.isDigit && e.isDigit
  | _ => false

/-- The `"required"` keyword: every listed key is present. -/
def requiredKeys (fields : List (String × Json)) (keys : List String) : Bool :=
  keys.all fun k => (lookupField fields k).isSome

/-- The `"properties"` keyword for one key: the constraint applies only
when the key is present. -/
def optProp (fields : List (String × Json)) (key : String) (p : Json → Bool) : Bool :=
  match lookupField fields key with
  | none => true
  | some v => p v

/-- Schema for the step field `no`: `{"type": "integer", "minimum": 1}`. -/
def checkNo : Json → Bool
  | .int n => decide (1 ≤ n)
  | _ => false

/-- Schema for `start`/`end`/`shot`: a string matching `^[0-9]{2}:[0-9]{2}$`. -/
def checkTimestamp : Json → Bool
  | .str s => mmss s
  | _ => false

/-- Schema for `telop`: `{"type": "string", "maxLength": 30}`. -/
def checkTelop : Json → Bool
  | .str s => decide (s.length ≤ 30)
  | _ => false

/-- Schema for one element of `steps` in `STEPS_JSON_SCHEMA`. -/
def stepCheck : Json → Bool
  | .obj fields =>
    requiredKeys fields
        ["no", "start", "end", "shot", "frame_file", "telop", "action", "target", "narration"]
      && optProp fields "no" checkNo
      && optProp fields "start" checkTimestamp
      && optProp fields "end" checkTimestamp
      && optProp fields "shot" checkTimestamp
      && optProp fields "frame_file" strCheck
      && optProp fields "telop" checkTelop
      && optProp fields "action" strCheck
      && optProp fields "target" strCheck
      && optProp fields "narration" strCheck
      && optProp fields "caution" strCheck
  | _ => false

/-- Schema for the `source` object in `STEPS_JSON_SCHEMA`. -/
def sourceCheck : Json → Bool
  | .obj fields =>
    requiredKeys fields ["video_duration_sec", "video_fps", "resolution"]
      && optProp fields "video_duration_sec" numCheck
      && optProp fields "video_fps" numCheck
      && optProp fields "resolution" strCheck
      && optProp fields "transcription_provider" strCheck
      && optProp fields "llm_provider" strCheck
  | _ => false

/-- Schema for one element of `common_mistakes`. -/
def mistakeCheck : Json → Bool
  | .obj fields =>
    requiredKeys fields ["mistake", "fix"]
      && optProp fields "mistake" strCheck
      && optProp fields "fix" strCheck
  | _ => false

/-- Schema for the quiz field `type`: `{"enum": ["choice", "text"]}`. -/
def checkQuizType : Json → Bool
  | .str s => s = "choice" || s = "text"
  | _ => false

/-- Schema for `choices`: an array of strings. -/
def checkStrArray : Json → Bool
  | .arr xs => xs.all strCheck
  | _ => false

/-- Schema for one element of `quiz`. -/
def quizItemCheck : Json → Bool
  | .obj fields =>
    requiredKeys fields ["type", "q", "a"]
      && optProp fields "type" checkQuizType
      && optProp fields "q" strCheck
      && optProp fields "choices" checkStrArray
      && optProp fields "a" strCheck
  | _ => false

/-- Schema for `steps`: an array whose elements satisfy `stepCheck`. -/
def stepsArrayCheck : Json → Bool
  | .arr xs => xs.all stepCheck
  | _ => false

/-- Schema for `common_mistakes`: an array of `mistakeCheck` elements. -/
def mistakesArrayCheck : Json → Bool
  | .arr xs => xs.all mistakeCheck
  | _ => false

/-- Schema for `quiz`: an array of `quizItemCheck` elements. -/
def quizArrayCheck : Json → Bool
  | .arr xs => xs.all quizItemCheck
  | _ => false

/-- Embeds `validate_steps_json` of `app/services/llm.py`: `jsonschema.validate`
against `STEPS_JSON_SCHEMA`; `true` means the document validates (the
Python function returns without raising `LLMValidationError`). -/
def validate_steps_json (data : Json) : Bool :=
  match data with
  | .obj fields =>
    requiredKeys fields ["title", "goal", "language", "source", "steps"]
      && optProp fields "title" strCheck
      && optProp fields "goal" strCheck
      && optProp fields "language" strCheck
      && optProp fields "source" sourceCheck
      && optProp fields "steps" stepsArrayCheck
      && optProp fields "common_mistakes" mistakesArrayCheck
      && optProp fields "quiz" quizArrayCheck
  | _ => false

/-- Characters of the extension of a bare filename: the suffix starting at
the last dot, except that the leading dots of the name never start an
extension (Python `os.path.splitext` on a name without directory part). -/
def splitextExtChars (cs : List Char) : List Char :=
  let lead := (cs.takeWhile (fun c => c = '.')).length
  let rest := cs.drop lead
  let revKeep := rest.reverse.takeWhile (fun c => c ≠ '.')
  if revKeep.length = rest.length then [] else '.' :: revKeep.reverse

/-- Computes `os.path.splitext(filename)[1].lower()` as used by `create_job`. -/
def extOf (filename : String) : String :=
  String.mk ((splitextExtChars filename.data).map Char.toLower)

/-- POSIX `os.path.basename`: the part of the name after the last slash. -/
def basename (s : String) : String :=
  String.mk ((s.data.reverse.takeWhile (fun c => c ≠ '/')).reverse)

/-- Everything after the first slash, if any. -/
def dropThroughSlash : List Char → Option (List Char)
  | [] => none
  | c :: cs => if c = '/' then some cs else dropThroughSlash cs

/-- Embeds `StorageService.key_from_uri` of `app/services/storage.py`:
`s3://bucket/key` becomes `key` (drop the scheme, then everything through
the first slash); anything else is returned unchanged. -/
def key_from_uri (uri : String) : String :=
  if uri.data.take 5 = "s3://".data then
    match dropThroughSlash (uri.data.drop 5) with
    | some key => String.mk key
    | none => ""
  else uri

/-- The `ALLOWED_VIDEO_EXTENSIONS` list of `routes.py`. -/
def ALLOWED_VIDEO_EXTENSIONS : List String := [".mp4", ".mov", ".avi", ".mkv", ".webm"]

/-- Value of `settings.max_video_size_bytes` (`max_video_size_mb = 1024` in config). -/
def maxVideoSizeBytes : Nat := 1024 * 1024 * 1024

/-- Default of `settings.s3_bucket`. -/
def s3Bucket : String := "manualstudio"

/-- An HTTP error response (`HTTPException`): status code, detail text, and
the optional categorical `error_code` carried in a structured detail body. -/
structure HttpErr where
  code : Nat
  detail : String
  errorCode : Option String := none
deriving DecidableEq, Repr

/-- Build an `HTTPException` whose detail carries no categorical code. -/
def httpError (code : Nat) (detail : String) : HttpErr :=
  { code := code, detail := detail }

/-- Inputs of `POST /api/jobs` (`create_job`): the uploaded file and form
fields. `filename = none` models `video_file.filename is None`. -/
structure CreateReq where
  filename : Option String
  fileSize : Nat
  title : Option String := none
  goal : Option String := none
  language : String := "ja"

/-- Outcomes of the collaborators touched by `create_job`: the S3 upload,
the Celery `send_task`, and the best-effort S3 delete used for cleanup. -/
structure CreateCollab where
  uploadOk : Bool
  dispatchOk : Bool
  deleteOk : Bool
  dispatchErrMsg : String := "queue unavailable"

/-- What is observable after `create_job` returns: the HTTP result, the Job
row in the database (if any), the artifact-store keys holding objects, and
the Celery tasks that were enqueued. -/
structure CreateOutcome where
  response : Except HttpErr String
  jobRow : Option Job
  storedKeys : List String
  dispatched : List String

/-- Computes `video_file.filename or "video.mp4"`: Python `or` falls through to the
default for `None` and for the empty string. -/
def effectiveFilename : Option String → String
  | none => "video.mp4"
  | some s => if s = "" then "video.mp4" else s

/-- Embeds `create_job` of `routes.py` (single-job creation): validates extension
and size, inserts the Job row, uploads the video, enqueues processing; on
enqueue failure it marks the committed row FAILED with `QUEUE_ERROR` and
best-effort deletes the uploaded video. -/
def create_job (jobId : String) (traceId : String) (req : CreateReq)
    (c : CreateCollab) : CreateOutcome :=
  let filename := effectiveFilename req.filename
  let ext := extOf filename
  if ¬ (ALLOWED_VIDEO_EXTENSIONS.contains ext) then
    { response := .error (httpError 400 ("Unsupported video format: " ++ ext
          ++ ". Supported: mp4, mov, avi, mkv, webm"))
      jobRow := none, storedKeys := [], dispatched := [] }
  else if maxVideoSizeBytes < req.fileSize then
    { response := .error (httpError 400 "Video file too large")
      jobRow := none, storedKeys := [], dispatched := [] }
  else
    let videoKey := "jobs/" ++ jobId ++ "/input" ++ ext
    if ¬ c.uploadOk then
      { response := .error (httpError 500 "Failed to upload video")
        jobRow := none, storedKeys := [], dispatched := [] }
    else
      let job : Job :=
        { status := .QUEUED, title := req.title, goal := req.goal
          language := req.language, traceId := some traceId
          inputVideoUri := some ("s3://" ++ s3Bucket ++ "/" ++ videoKey) }
      if c.dispatchOk then
        { response := .ok "QUEUED", jobRow := some job
          storedKeys := [videoKey]
          dispatched := ["app.workers.tasks.process_video"] }
      else
        let failedJob : Job :=
          { job with
              status := JobStatus.FAILED
              errorCode := some "QUEUE_ERROR"
              errorMessage := some c.dispatchErrMsg }
        { response := .error (httpError 500 ("Failed to queue processing task"))
          jobRow := some failedJob
          storedKeys := if c.deleteOk then [] else [videoKey]
          dispatched := [] }

/-- Result of a job-mutating route: HTTP result (payload abstracted to a
string), the Job row afterwards, and the Celery tasks enqueued. -/
structure OpOutcome where
  response : Except HttpErr String
  jobRow : Option Job
  dispatched : List String

/-- Embeds `cancel_job` of `routes.py`. Here `validId` models whether `uuid.UUID(job_id)`
parses; `job?` is the row found for that id. -/
def cancel_job (validId : Bool) (job? : Option Job) : OpOutcome :=
  if ¬ validId then
    { response := .error (httpError 400 ("Invalid job ID format"))
      jobRow := job?, dispatched := [] }
  else
    match job? with
    | none =>
      { response := .error (httpError 404 ("Job not found"))
        jobRow := none, dispatched := [] }
    | some job =>
      if job.status = .QUEUED ∨ job.status = .RUNNING then
        { response := .ok "CANCELED"
          jobRow := some { job with status := JobStatus.CANCELED }
          dispatched := [] }
      else
        { response := .error (httpError 409 ("Cannot cancel job in " ++ job.status.value
          ++ " status. Only QUEUED or RUNNING jobs can be canceled."))
          jobRow := some job, dispatched := [] }

/-- Embeds `retry_job` of `routes.py`: re-queues a FAILED job from scratch. -/
def retry_job (validId : Bool) (job? : Option Job) (newTraceId : String)
    (dispatchOk : Bool) (dispatchErrMsg : String) : OpOutcome :=
  if ¬ validId then
    { response := .error (httpError 400 ("Invalid job ID format"))
      jobRow := job?, dispatched := [] }
  else
    match job? with
    | none =>
      { response := .error (httpError 404 ("Job not found"))
        jobRow := none, dispatched := [] }
    | some job =>
      if job.status ≠ .FAILED then
        { response := .error (httpError 409 ("Cannot retry job in " ++ job.status.value
          ++ " status. Only FAILED jobs can be retried."))
          jobRow := some job, dispatched := [] }
      else if job.inputVideoUri = none then
        { response := .error (httpError 400 ("Cannot retry job: input video not found"))
          jobRow := some job, dispatched := [] }
      else
        let queued : Job :=
          { job with
              status := JobStatus.QUEUED
              stage := none
              progress := 0
              errorCode := none
              errorMessage := none
              traceId := some newTraceId }
        if dispatchOk then
          { response := .ok newTraceId, jobRow := some queued
            dispatched := ["app.workers.tasks.process_video"] }
        else
          let refailed : Job :=
            { queued with
                status := JobStatus.FAILED
                errorCode := some "QUEUE_ERROR"
                errorMessage := some dispatchErrMsg }
          { response := .error (httpError 500 ("Failed to queue retry task"))
            jobRow := some refailed, dispatched := [] }

/-- Embeds `regenerate_pptx` of `routes.py`: PPTX-only regeneration from the
current steps version and existing frames. -/
def regenerate_pptx (validId : Bool) (job? : Option Job)
    (newTraceId : String) : OpOutcome :=
  if ¬ validId then
    { response := .error (httpError 400 ("Invalid job ID format"))
      jobRow := job?, dispatched := [] }
  else
    match job? with
    | none =>
      { response := .error (httpError 404 ("Job not found"))
        jobRow := none, dispatched := [] }
    | some job =>
      if job.status ≠ .SUCCEEDED then
        { response := .error (httpError 400 ("Cannot regenerate PPTX for job in " ++ job.status.value
          ++ " status. Job must be SUCCEEDED."))
          jobRow := some job, dispatched := [] }
      else if job.framesPrefixUri = none then
        { response := .error (httpError 400 ("No frames available for this job"))
          jobRow := some job, dispatched := [] }
      else if job.stepsJsonUri = none then
        { response := .error (httpError 400 ("No steps available for this job"))
          jobRow := some job, dispatched := [] }
      else
        let running : Job :=
          { job with
              status := JobStatus.RUNNING
              stage := some "GENERATE_PPTX_ONLY"
              progress := 0
              errorCode := none
              errorMessage := none
              traceId := some newTraceId }
        { response := .ok "RUNNING", jobRow := some running
          dispatched := ["app.workers.tasks.regenerate_pptx"] }

/-- One row of `steps_versions` for a fixed job (`StepsVersion` model). -/
structure LedgerEntry where
  version : Nat
  stepsJson : Json
  editSource : String
  editNote : Option String

/-- The state touched by `update_job_steps` for one job: the Job row, that
job's `steps_versions` rows in insertion order, and the artifact-store
keys holding objects. -/
structure StepsState where
  job : Option Job
  ledger : List LedgerEntry
  storedKeys : List String

/-- Result of `PUT /jobs/{id}/steps`: the HTTP result (the new version
number on success) and the state after the handler returns. -/
structure EditOutcome where
  response : Except HttpErr Nat
  state : StepsState

/-- Embeds `update_job_steps` of `routes.py`: validates the submitted steps_json
against the schema, appends a ledger row with version = count + 1, advances
`current_steps_version`, uploads the snapshot; on upload failure the
transaction is rolled back and nothing is applied. -/
def update_job_steps (jobId : String) (validId : Bool) (st : StepsState)
    (stepsJson : Json) (editNote : Option String) (uploadOk : Bool) : EditOutcome :=
  if ¬ validId then
    { response := .error (httpError 400 ("Invalid job ID format")), state := st }
  else
    match st.job with
    | none =>
      { response := .error (httpError 404 ("Job not found")), state := st }
    | some job =>
      if job.status ≠ .SUCCEEDED then
        { response := .error (httpError 400 ("Cannot edit steps for job in " ++ job.status.value
          ++ " status. Job must be SUCCEEDED."))
          state := st }
      else if ¬ validate_steps_json stepsJson then
        { response := .error { code := 400, detail := "Schema validation failed"
                               errorCode := some "STEPS_SCHEMA_INVALID" }
          state := st }
      else
        let newVersion := st.ledger.length + 1
        if ¬ uploadOk then
          { response := .error (httpError 500 ("Failed to save steps"))
            state := st }
        else
          let stepsKey := "jobs/" ++ jobId ++ "/steps_v" ++ toString newVersion ++ ".json"
          let updatedJob : Job :=
            { job with
                currentStepsVersion := newVersion
                stepsJsonUri := some ("s3://" ++ s3Bucket ++ "/" ++ stepsKey) }
          let entry : LedgerEntry :=
            { version := newVersion, stepsJson := stepsJson
              editSource := "manual", editNote := editNote }
          { response := .ok newVersion
            state := { job := some updatedJob, ledger := st.ledger ++ [entry]
                       storedKeys := stepsKey :: st.storedKeys } }

/-- Embeds `get_frame` of `routes.py`: presigns one frame image. The whole storage
interaction sits in a `try` block whose `except Exception` handler turns
any raised error — including the 400 raised for a path-bearing filename —
into a 404 "Frame not found"; on success the presigned key is
`frames_prefix ++ normalized_frame`. -/
def get_frame (validId : Bool) (job? : Option Job) (frameFile : String) :
    Except HttpErr String :=
  if ¬ validId then .error (httpError 400 ("Invalid job ID format"))
  else
    match job? with
    | none => .error (httpError 404 ("Job not found"))
    | some job =>
      match job.framesPrefixUri with
      | none => .error (httpError 404 ("Frames not yet generated"))
      | some uri =>
        let framesPfx := key_from_uri uri
        let normalized := basename frameFile
        if normalized ≠ frameFile then
          .error (httpError 404 ("Frame not found"))
        else
          .ok (framesPfx ++ normalized)

/-! ### Spec-side definitions

The following predicates transcribe the specification text (§4.5/§6 schema
contract, §3 invariants, §4.2 ledger behaviour) rather than the source;
they are the comparison side of the refinement statements below. -/

/-- Spec §6 (amended to what the code enforces): a `MM:SS` timestamp —
two decimal digits, a colon, two decimal digits. -/
def SpecTimestamp (s : String) : Prop :=
  ∃ a b c d : Char, s.data = [a, b, ':', c, d] ∧
    a.isDigit ∧ b.isDigit ∧ c.isDigit ∧ d.isDigit

/-- Spec §6: a JSON number (integral or not). -/
def SpecIsNumber (v : Json) : Prop :=
  v = Json.float ∨ ∃ n : Int, v = Json.int n

/-- A required field of a JSON object satisfying a constraint. -/
def ReqField (fields : List (String × Json)) (k : String) (P : Json → Prop) : Prop :=
  ∃ v, lookupField fields k = some v ∧ P v

/-- An optional field of a JSON object: the constraint applies only when
the field is present. -/
def OptField (fields : List (String × Json)) (k : String) (P : Json → Prop) : Prop :=
  ∀ v, lookupField fields k = some v → P v

/-- A JSON string. -/
def SpecIsStr (v : Json) : Prop := ∃ s, v = Json.str s

/-- Spec §6, one step: sequence number `no ≥ 1`, start/end/shot timestamps,
a frame reference, a short label of at most 30 characters, action, target,
narration; caution optional. -/
def SpecStepOk (j : Json) : Prop :=
  ∃ fields, j = Json.obj fields ∧
    ReqField fields "no" (fun v => ∃ n : Int, v = Json.int n ∧ 1 ≤ n) ∧
    ReqField fields "start" (fun v => ∃ s, v = Json.str s ∧ SpecTimestamp s) ∧
    ReqField fields "end" (fun v => ∃ s, v = Json.str s ∧ SpecTimestamp s) ∧
    ReqField fields "shot" (fun v => ∃ s, v = Json.str s ∧ SpecTimestamp s) ∧
    ReqField fields "frame_file" SpecIsStr ∧
    ReqField fields "telop" (fun v => ∃ s, v = Json.str s ∧ s.length ≤ 30) ∧
    ReqField fields "action" SpecIsStr ∧
    ReqField fields "target" SpecIsStr ∧
    ReqField fields "narration" SpecIsStr ∧
    OptField fields "caution" SpecIsStr

/-- Spec §6, the `source` block: required video_duration_sec, video_fps,
resolution; optional provider names. -/
def SpecSourceOk (j : Json) : Prop :=
  ∃ fields, j = Json.obj fields ∧
    ReqField fields "video_duration_sec" SpecIsNumber ∧
    ReqField fields "video_fps" SpecIsNumber ∧
    ReqField fields "resolution" SpecIsStr ∧
    OptField fields "transcription_provider" SpecIsStr ∧
    OptField fields "llm_provider" SpecIsStr

/-- Spec §6, one `common_mistakes` item: `{mistake, fix}`. -/
def SpecMistakeOk (j : Json) : Prop :=
  ∃ fields, j = Json.obj fields ∧
    ReqField fields "mistake" SpecIsStr ∧
    ReqField fields "fix" SpecIsStr

/-- Spec §6, one quiz item: `type ∈ {choice, text}`, `q`, optional
`choices` (array of strings), `a`. -/
def SpecQuizOk (j : Json) : Prop :=
  ∃ fields, j = Json.obj fields ∧
    ReqField fields "type" (fun v => ∃ s, v = Json.str s ∧ (s = "choice" ∨ s = "text")) ∧
    ReqField fields "q" SpecIsStr ∧
    OptField fields "choices" (fun v => ∃ xs, v = Json.arr xs ∧ ∀ x ∈ xs, SpecIsStr x) ∧
    ReqField fields "a" SpecIsStr

/-- Spec §6, the whole step-data document: required top-level keys
`title`, `goal`, `language`, `source`, `steps`; optional
`common_mistakes` and `quiz`. -/
def SpecDocOk (d : Json) : Prop :=
  ∃ fields, d = Json.obj fields ∧
    ReqField fields "title" SpecIsStr ∧
    ReqField fields "goal" SpecIsStr ∧
    ReqField fields "language" SpecIsStr ∧
    ReqField fields "source" SpecSourceOk ∧
    ReqField fields "steps" (fun v => ∃ xs, v = Json.arr xs ∧ ∀ s ∈ xs, SpecStepOk s) ∧
    OptField fields "common_mistakes" (fun v => ∃ xs, v = Json.arr xs ∧ ∀ m ∈ xs, SpecMistakeOk m) ∧
    OptField fields "quiz" (fun v => ∃ xs, v = Json.arr xs ∧ ∀ q ∈ xs, SpecQuizOk q)

/-- Spec §3 invariant: `stage` is null whenever the status is not RUNNING. -/
def StageInv (j : Job) : Prop := j.status ≠ JobStatus.RUNNING → j.stage = none

/-- Spec §3/§8 invariant on the error columns, as the code maintains it:
`status = FAILED` iff `error_code` is non-null, and `error_message` is
non-null only when FAILED. (`trace_id` is populated in every state.) -/
def ErrInv (j : Job) : Prop :=
  (j.status = JobStatus.FAILED ↔ j.errorCode ≠ none) ∧
  (j.status ≠ JobStatus.FAILED → j.errorMessage = none)

/-- Spec §4.2 invariant: the per-job version numbers are exactly
`1..N` in order, `N` being the number of ledger rows. -/
def GaplessLedger (st : StepsState) : Prop :=
  st.ledger.map LedgerEntry.version = List.range' 1 st.ledger.length

/-- One edit attempt against `PUT /jobs/{id}/steps`: the submitted
document, the edit note, and whether the storage upload succeeds. -/
structure EditAttempt where
  stepsJson : Json
  editNote : Option String
  uploadOk : Bool

/-- The state left behind by one edit attempt. -/
def applyEditAttempt (jobId : String) (st : StepsState) (a : EditAttempt) : StepsState :=
  (update_job_steps jobId true st a.stepsJson a.editNote a.uploadOk).state

/-- Whether an edit response is a success. -/
def isOkResp : Except HttpErr Nat → Bool
  | .ok _ => true
  | .error _ => false

/-- How many of a sequence of edit attempts are accepted, tracking the
evolving state. -/
def acceptedCount (jobId : String) (st : StepsState) : List EditAttempt → Nat
  | [] => 0
  | a :: rest =>
    let o := update_job_steps jobId true st a.stepsJson a.editNote a.uploadOk
    (if isOkResp o.response then 1 else 0) + acceptedCount jobId o.state rest

/-- A step document used in concrete tests: all fields present and
well-typed, with every timestamp set to `t`. -/
def sampleStep (t : String) : Json :=
  Json.obj [("no", Json.int 1), ("start", Json.str t), ("end", Json.str t),
    ("shot", Json.str t), ("frame_file", Json.str "step_001.png"),
    ("telop", Json.str "Open the app"), ("action", Json.str "Click"),
    ("target", Json.str "icon"), ("narration", Json.str "Click the icon.")]

/-- A complete steps document whose three step timestamps are all `t`. -/
def sampleDoc (t : String) : Json :=
  Json.obj [("title", Json.str "Demo"), ("goal", Json.str "G"),
    ("language", Json.str "ja"),
    ("source", Json.obj [("video_duration_sec", Json.int 60),
      ("video_fps", Json.float), ("resolution", Json.str "1920x1080")]),
    ("steps", Json.arr [sampleStep t])]

/-- A concrete FAILED job as in spec Scenario D. -/
def failedJobD : Job :=
  { status := JobStatus.FAILED
    inputVideoUri := some "s3://manualstudio/jobs/j/input.mp4"
    errorCode := some "QUEUE_ERROR"
    errorMessage := some "boom"
    traceId := some "t0"
    progress := 55 }

/-- A concrete SUCCEEDED job with a frames prefix. -/
def framesJob : Job :=
  { status := JobStatus.SUCCEEDED
    framesPrefixUri := some "s3://manualstudio/jobs/j/frames/" }

/-! ### Helper lemmas -/

theorem strCheck_iff (v : Json) : strCheck v = true ↔ SpecIsStr v := by
  cases v <;> simp [strCheck, SpecIsStr]

theorem numCheck_iff (v : Json) : numCheck v = true ↔ SpecIsNumber v := by
  cases v <;> simp [numCheck, SpecIsNumber]

theorem checkNo_iff (v : Json) :
    checkNo v = true ↔ ∃ n : Int, v = Json.int n ∧ 1 ≤ n := by
  cases v <;> simp [checkNo]

theorem mmss_iff (s : String) : mmss s = true ↔ SpecTimestamp s := by
  rcases hcs : s.data with _ | ⟨a, _ | ⟨b, _ | ⟨c, _ | ⟨d, _ | ⟨e, _ | ⟨f, rest⟩⟩⟩⟩⟩⟩ <;>
    simp [mmss, SpecTimestamp, hcs, Bool.and_eq_true, decide_eq_true_iff]
  constructor
  · rintro ⟨⟨⟨⟨ha, hb⟩, hc⟩, hd⟩, he⟩
    exact ⟨a, b, d, e, ⟨rfl, rfl, hc, rfl, rfl⟩, ha, hb, hd, he⟩
  · rintro ⟨a1, b1, c1, d1, ⟨rfl, rfl, hc, rfl, rfl⟩, ha, hb, hd, he⟩
    exact ⟨⟨⟨⟨ha, hb⟩, hc⟩, hd⟩, he⟩

theorem checkTimestamp_iff (v : Json) :
    checkTimestamp v = true ↔ ∃ s, v = Json.str s ∧ SpecTimestamp s := by
  cases v <;> simp [checkTimestamp, mmss_iff]

theorem checkTelop_iff (v : Json) :
    checkTelop v = true ↔ ∃ s, v = Json.str s ∧ s.length ≤ 30 := by
  cases v <;> simp [checkTelop]

theorem reqField_split (fields : List (String × Json)) (k : String)
    (p : Json → Bool) (P : Json → Prop) (h : ∀ v, p v = true ↔ P v) :
    ReqField fields k P ↔
      ((lookupField fields k).isSome = true ∧ optProp fields k p = true) := by
  cases hv : lookupField fields k <;> simp [ReqField, optProp, hv, h]

theorem optField_split (fields : List (String × Json)) (k : String)
    (p : Json → Bool) (P : Json → Prop) (h : ∀ v, p v = true ↔ P v) :
    OptField fields k P ↔ optProp fields k p = true := by
  cases hv : lookupField fields k <;> simp [OptField, optProp, hv, h]

theorem checkQuizType_iff (v : Json) :
    checkQuizType v = true ↔ ∃ s, v = Json.str s ∧ (s = "choice" ∨ s = "text") := by
  cases v <;> simp [checkQuizType]

theorem checkStrArray_iff (v : Json) :
    checkStrArray v = true ↔ ∃ xs, v = Json.arr xs ∧ ∀ x ∈ xs, SpecIsStr x := by
  cases v <;> simp [checkStrArray, List.all_eq_true, strCheck_iff]

theorem stepCheck_iff (j : Json) : stepCheck j = true ↔ SpecStepOk j := by
  cases j with
  | obj fields =>
    simp only [SpecStepOk, Json.obj.injEq, exists_eq_left']
    rw [reqField_split fields "no" checkNo _ checkNo_iff,
      reqField_split fields "start" checkTimestamp _ checkTimestamp_iff,
      reqField_split fields "end" checkTimestamp _ checkTimestamp_iff,
      reqField_split fields "shot" checkTimestamp _ checkTimestamp_iff,
      reqField_split fields "frame_file" strCheck _ strCheck_iff,
      reqField_split fields "telop" checkTelop _ checkTelop_iff,
      reqField_split fields "action" strCheck _ strCheck_iff,
      reqField_split fields "target" strCheck _ strCheck_iff,
      reqField_split fields "narration" strCheck _ strCheck_iff,
      optField_split fields "caution" strCheck _ strCheck_iff]
    simp only [stepCheck, requiredKeys, List.all_cons, List.all_nil,
      Bool.and_eq_true, Bool.and_true]
    tauto
  | null => simp [stepCheck, SpecStepOk]
  | bool b => simp [stepCheck, SpecStepOk]
  | int n => simp [stepCheck, SpecStepOk]
  | float => simp [stepCheck, SpecStepOk]
  | str s => simp [stepCheck, SpecStepOk]
  | arr xs => simp [stepCheck, SpecStepOk]

theorem sourceCheck_iff (j : Json) : sourceCheck j = true ↔ SpecSourceOk j := by
  cases j with
  | obj fields =>
    simp only [SpecSourceOk, Json.obj.injEq, exists_eq_left']
    rw [reqField_split fields "video_duration_sec" numCheck _ numCheck_iff,
      reqField_split fields "video_fps" numCheck _ numCheck_iff,
      reqField_split fields "resolution" strCheck _ strCheck_iff,
      optField_split fields "transcription_provider" strCheck _ strCheck_iff,
      optField_split fields "llm_provider" strCheck _ strCheck_iff]
    simp only [sourceCheck, requiredKeys, List.all_cons, List.all_nil,
      Bool.and_eq_true, Bool.and_true]
    tauto
  | null => simp [sourceCheck, SpecSourceOk]
  | bool b => simp [sourceCheck, SpecSourceOk]
  | int n => simp [sourceCheck, SpecSourceOk]
  | float => simp [sourceCheck, SpecSourceOk]
  | str s => simp [sourceCheck, SpecSourceOk]
  | arr xs => simp [sourceCheck, SpecSourceOk]

theorem mistakeCheck_iff (j : Json) : mistakeCheck j = true ↔ SpecMistakeOk j := by
  cases j with
  | obj fields =>
    simp only [SpecMistakeOk, Json.obj.injEq, exists_eq_left']
    rw [reqField_split fields "mistake" strCheck _ strCheck_iff,
      reqField_split fields "fix" strCheck _ strCheck_iff]
    simp only [mistakeCheck, requiredKeys, List.all_cons, List.all_nil,
      Bool.and_eq_true, Bool.and_true]
    tauto
  | null => simp [mistakeCheck, SpecMistakeOk]
  | bool b => simp [mistakeCheck, SpecMistakeOk]
  | int n => simp [mistakeCheck, SpecMistakeOk]
  | float => simp [mistakeCheck, SpecMistakeOk]
  | str s => simp [mistakeCheck, SpecMistakeOk]
  | arr xs => simp [mistakeCheck, SpecMistakeOk]

theorem quizItemCheck_iff (j : Json) : quizItemCheck j = true ↔ SpecQuizOk j := by
  cases j with
  | obj fields =>
    simp only [SpecQuizOk, Json.obj.injEq, exists_eq_left']
    rw [reqField_split fields "type" checkQuizType _ checkQuizType_iff,
      reqField_split fields "q" strCheck _ strCheck_iff,
      optField_split fields "choices" checkStrArray _ checkStrArray_iff,
      reqField_split fields "a" strCheck _ strCheck_iff]
    simp only [quizItemCheck, requiredKeys, List.all_cons, List.all_nil,
      Bool.and_eq_true, Bool.and_true]
    tauto
  | null => simp [quizItemCheck, SpecQuizOk]
  | bool b => simp [quizItemCheck, SpecQuizOk]
  | int n => simp [quizItemCheck, SpecQuizOk]
  | float => simp [quizItemCheck, SpecQuizOk]
  | str s => simp [quizItemCheck, SpecQuizOk]
  | arr xs => simp [quizItemCheck, SpecQuizOk]

theorem stepsArrayCheck_iff (v : Json) :
    stepsArrayCheck v = true ↔ ∃ xs, v = Json.arr xs ∧ ∀ s ∈ xs, SpecStepOk s := by
  cases v <;> simp [stepsArrayCheck, List.all_eq_true, stepCheck_iff]

theorem mistakesArrayCheck_iff (v : Json) :
    mistakesArrayCheck v = true ↔ ∃ xs, v = Json.arr xs ∧ ∀ m ∈ xs, SpecMistakeOk m := by
  cases v <;> simp [mistakesArrayCheck, List.all_eq_true, mistakeCheck_iff]

theorem quizArrayCheck_iff (v : Json) :
    quizArrayCheck v = true ↔ ∃ xs, v = Json.arr xs ∧ ∀ q ∈ xs, SpecQuizOk q := by
  cases v <;> simp [quizArrayCheck, List.all_eq_true, quizItemCheck_iff]

/-! ### Claim C5 -/

/-- C5 (amended). The step-data validator accepts a submitted document
exactly when it satisfies the structural schema: all required top-level
fields present, and each step carrying a sequence number, start/end/shot
timestamps in MM:SS form (two digits, colon, two digits — HH:MM:SS is
rejected), a frame reference, a short label of at most 30 characters,
action, target, and narration, with caution optional. -/
theorem C5_validator_matches_structural_schema (d : Json) :
    validate_steps_json d = true ↔ SpecDocOk d := by
  cases d with
  | obj fields =>
    simp only [SpecDocOk, Json.obj.injEq, exists_eq_left']
    rw [reqField_split fields "title" strCheck _ strCheck_iff,
      reqField_split fields "goal" strCheck _ strCheck_iff,
      reqField_split fields "language" strCheck _ strCheck_iff,
      reqField_split fields "source" sourceCheck _ sourceCheck_iff,
      reqField_split fields "steps" stepsArrayCheck _ stepsArrayCheck_iff,
      optField_split fields "common_mistakes" mistakesArrayCheck _ mistakesArrayCheck_iff,
      optField_split fields "quiz" quizArrayCheck _ quizArrayCheck_iff]
    simp only [validate_steps_json, requiredKeys, List.all_cons, List.all_nil,
      Bool.and_eq_true, Bool.and_true]
    tauto
  | null => simp [validate_steps_json, SpecDocOk]
  | bool b => simp [validate_steps_json, SpecDocOk]
  | int n => simp [validate_steps_json, SpecDocOk]
  | float => simp [validate_steps_json, SpecDocOk]
  | str s => simp [validate_steps_json, SpecDocOk]
  | arr xs => simp [validate_steps_json, SpecDocOk]

/-- C5 counterexample: a document that is well-formed in every other way
but whose timestamps are in HH:MM:SS form is rejected by the validator,
while the same document with MM:SS timestamps is accepted — refuting
"start/end/shot timestamps in MM:SS or HH:MM:SS form" and in particular
the sentence that an HH:MM:SS document passes validation. -/
theorem C5_counterexample :
    validate_steps_json (sampleDoc "00:01:30") = false ∧
    validate_steps_json (sampleDoc "01:30") = true := by
  constructor <;> rfl

/-! ### Claim C4 -/

/-- C4 (amended). The create operation never validates the language: it
fails with a 400 validation error exactly when the uploaded file's
extension is unsupported or the file exceeds the size cap (no Job row is
created then); when it succeeds, the new Job has status QUEUED,
current_version equal to 1, and the downstream artifact references
(audio, steps, pptx, frames) null, while the input-video reference is set
to the uploaded object. -/
theorem C4_create_validates_file_not_language (jobId traceId : String)
    (req : CreateReq) (c : CreateCollab) :
    (ALLOWED_VIDEO_EXTENSIONS.contains (extOf (effectiveFilename req.filename)) = false →
      (create_job jobId traceId req c).response =
        .error (httpError 400 ("Unsupported video format: "
          ++ extOf (effectiveFilename req.filename)
          ++ ". Supported: mp4, mov, avi, mkv, webm")) ∧
      (create_job jobId traceId req c).jobRow = none)
  ∧ (ALLOWED_VIDEO_EXTENSIONS.contains (extOf (effectiveFilename req.filename)) = true →
      maxVideoSizeBytes < req.fileSize →
      (create_job jobId traceId req c).response =
        .error (httpError 400 "Video file too large") ∧
      (create_job jobId traceId req c).jobRow = none)
  ∧ (ALLOWED_VIDEO_EXTENSIONS.contains (extOf (effectiveFilename req.filename)) = true →
      req.fileSize ≤ maxVideoSizeBytes →
      c.uploadOk = true → c.dispatchOk = true →
      ∃ j, (create_job jobId traceId req c).response = .ok "QUEUED" ∧
        (create_job jobId traceId req c).jobRow = some j ∧
        j.status = JobStatus.QUEUED ∧
        j.currentStepsVersion = 1 ∧
        j.audioUri = none ∧ j.stepsJsonUri = none ∧
        j.pptxUri = none ∧ j.framesPrefixUri = none ∧
        j.language = req.language ∧
        j.inputVideoUri = some ("s3://" ++ s3Bucket ++ "/"
          ++ ("jobs/" ++ jobId ++ "/input" ++ extOf (effectiveFilename req.filename)))) := by
  refine ⟨fun hc => ?_, fun hc hlt => ?_, fun hc hle hu hd => ?_⟩
  · have hmem : extOf (effectiveFilename req.filename) ∉ ALLOWED_VIDEO_EXTENSIONS := by
      simpa using hc
    simp [create_job, hmem]
  · have hmem : extOf (effectiveFilename req.filename) ∈ ALLOWED_VIDEO_EXTENSIONS := by
      simpa using hc
    simp [create_job, hmem, hlt]
  · have hmem : extOf (effectiveFilename req.filename) ∈ ALLOWED_VIDEO_EXTENSIONS := by
      simpa using hc
    have hnlt : ¬ (maxVideoSizeBytes < req.fileSize) := Nat.not_lt.mpr hle
    simp [create_job, hmem, hnlt, hu, hd]

/-- C4 witness: a concrete successful creation through
`C4_create_validates_file_not_language`. -/
theorem C4_witness :
    ALLOWED_VIDEO_EXTENSIONS.contains
        (extOf (effectiveFilename (some "demo.mp4"))) = true ∧
    (5 ≤ maxVideoSizeBytes) ∧
    ∃ j, (create_job "job1" "t1"
        { filename := some "demo.mp4", fileSize := 5 }
        { uploadOk := true, dispatchOk := true, deleteOk := true }).response = .ok "QUEUED" ∧
      (create_job "job1" "t1"
        { filename := some "demo.mp4", fileSize := 5 }
        { uploadOk := true, dispatchOk := true, deleteOk := true }).jobRow = some j ∧
      j.status = JobStatus.QUEUED ∧
      j.currentStepsVersion = 1 ∧
      j.audioUri = none ∧ j.stepsJsonUri = none ∧
      j.pptxUri = none ∧ j.framesPrefixUri = none ∧
      j.language = "ja" ∧
      j.inputVideoUri = some ("s3://" ++ s3Bucket ++ "/"
        ++ ("jobs/" ++ "job1" ++ "/input" ++ extOf (effectiveFilename (some "demo.mp4")))) :=
  ⟨by decide, by decide,
    (C4_create_validates_file_not_language "job1" "t1"
      { filename := some "demo.mp4", fileSize := 5 }
      { uploadOk := true, dispatchOk := true, deleteOk := true }).2.2
      (by decide) (by decide) rfl rfl⟩

/-- C4 counterexample: with an unrecognized language ("zz") and an empty
supplied filename, creation succeeds (no ValidationError), and the
created Job's input-video artifact reference is non-null — refuting both
"fails with ValidationError whenever the supplied language is
unrecognized or the input reference is empty" and "all artifact
references null". -/
theorem C4_counterexample :
    (create_job "job1" "t1" { filename := some "", fileSize := 0, language := "zz" }
      { uploadOk := true, dispatchOk := true, deleteOk := true }).response = .ok "QUEUED" ∧
    Option.bind (create_job "job1" "t1"
        { filename := some "", fileSize := 0, language := "zz" }
        { uploadOk := true, dispatchOk := true, deleteOk := true }).jobRow
      Job.inputVideoUri ≠ none := by
  exact ⟨rfl, by decide⟩

/-! ### Claim C1 -/

/-- C1 (amended). When the video upload succeeds but the subsequent task
dispatch fails, `create_job` deletes the just-uploaded video artifact
(so no orphaned artifact remains when the best-effort delete succeeds)
and reports a 500 error, but it does not roll back the Job Record: the
Job row remains, marked FAILED with error_code "QUEUE_ERROR" and the
dispatch failure as error_message, and no task is enqueued. -/
theorem C1_enqueue_failure_keeps_job_row (jobId traceId : String)
    (req : CreateReq) (c : CreateCollab)
    (hc : ALLOWED_VIDEO_EXTENSIONS.contains (extOf (effectiveFilename req.filename)) = true)
    (hle : req.fileSize ≤ maxVideoSizeBytes)
    (hu : c.uploadOk = true) (hd : c.dispatchOk = false) (hdel : c.deleteOk = true) :
    ∃ j, (create_job jobId traceId req c).jobRow = some j ∧
      j.status = JobStatus.FAILED ∧
      j.errorCode = some "QUEUE_ERROR" ∧
      j.errorMessage = some c.dispatchErrMsg ∧
      (create_job jobId traceId req c).storedKeys = [] ∧
      (create_job jobId traceId req c).dispatched = [] ∧
      (create_job jobId traceId req c).response =
        .error (httpError 500 "Failed to queue processing task") := by
  have hmem : extOf (effectiveFilename req.filename) ∈ ALLOWED_VIDEO_EXTENSIONS := by
    simpa using hc
  have hnlt : ¬ (maxVideoSizeBytes < req.fileSize) := Nat.not_lt.mpr hle
  simp [create_job, hmem, hnlt, hu, hd, hdel]

/-- C1 witness: a concrete run through `C1_enqueue_failure_keeps_job_row`. -/
theorem C1_witness :
    ∃ j, (create_job "job1" "t1" { filename := some "demo.mp4", fileSize := 5 }
        { uploadOk := true, dispatchOk := false, deleteOk := true }).jobRow = some j ∧
      j.status = JobStatus.FAILED ∧
      j.errorCode = some "QUEUE_ERROR" ∧
      j.errorMessage = some "queue unavailable" ∧
      (create_job "job1" "t1" { filename := some "demo.mp4", fileSize := 5 }
        { uploadOk := true, dispatchOk := false, deleteOk := true }).storedKeys = [] ∧
      (create_job "job1" "t1" { filename := some "demo.mp4", fileSize := 5 }
        { uploadOk := true, dispatchOk := false, deleteOk := true }).dispatched = [] ∧
      (create_job "job1" "t1" { filename := some "demo.mp4", fileSize := 5 }
        { uploadOk := true, dispatchOk := false, deleteOk := true }).response =
        .error (httpError 500 "Failed to queue processing task") :=
  C1_enqueue_failure_keeps_job_row "job1" "t1"
    { filename := some "demo.mp4", fileSize := 5 }
    { uploadOk := true, dispatchOk := false, deleteOk := true }
    (by decide) (by decide) rfl rfl rfl

/-- C1 counterexample: after an upload-success/dispatch-failure creation,
a Job row does remain in the store — refuting "afterwards no Job row …
remain[s] in either store". -/
theorem C1_counterexample :
    (create_job "job1" "t1" { filename := some "demo.mp4", fileSize := 5 }
      { uploadOk := true, dispatchOk := false, deleteOk := true }).jobRow ≠ none := by
  decide

/-! ### Claim C2 -/

/-- C2 (amended). For a job that exists but is in the wrong state, each of
the four operations rejects with a response that names the current state;
cancel and retry signal 409 Conflict, distinct both from the 404 not-found
outcome and from the 400 malformed-request outcome, but edit and
regenerate signal 400 — the same status code as a malformed request
(distinguishable from not-found only). -/
theorem C2_conflict_signaling (jobId : String) (job : Job) (st : StepsState)
    (d : Json) (note : Option String) (tr msg : String) (dOk up : Bool) :
    (job.status ≠ JobStatus.QUEUED → job.status ≠ JobStatus.RUNNING →
      (cancel_job true (some job)).response =
        .error (httpError 409 ("Cannot cancel job in " ++ job.status.value
          ++ " status. Only QUEUED or RUNNING jobs can be canceled.")) ∧
      (cancel_job true (some job)).jobRow = some job)
  ∧ (job.status ≠ JobStatus.FAILED →
      (retry_job true (some job) tr dOk msg).response =
        .error (httpError 409 ("Cannot retry job in " ++ job.status.value
          ++ " status. Only FAILED jobs can be retried.")) ∧
      (retry_job true (some job) tr dOk msg).jobRow = some job)
  ∧ (job.status ≠ JobStatus.SUCCEEDED → st.job = some job →
      (update_job_steps jobId true st d note up).response =
        .error (httpError 400 ("Cannot edit steps for job in " ++ job.status.value
          ++ " status. Job must be SUCCEEDED.")) ∧
      (update_job_steps jobId true st d note up).state = st)
  ∧ (job.status ≠ JobStatus.SUCCEEDED →
      (regenerate_pptx true (some job) tr).response =
        .error (httpError 400 ("Cannot regenerate PPTX for job in " ++ job.status.value
          ++ " status. Job must be SUCCEEDED.")) ∧
      (regenerate_pptx true (some job) tr).jobRow = some job)
  ∧ ((cancel_job true none).response = .error (httpError 404 "Job not found"))
  ∧ ((cancel_job false (some job)).response =
      .error (httpError 400 "Invalid job ID format")) := by
  refine ⟨fun hq hr => ?_, fun hf => ?_, fun hs hst => ?_, fun hs => ?_, ?_, ?_⟩
  · simp [cancel_job, hq, hr]
  · simp [retry_job, hf]
  · simp [update_job_steps, hst, hs]
  · simp [regenerate_pptx, hs]
  · simp [cancel_job]
  · simp [cancel_job]

/-- C2 witness: concrete conflicts through `C2_conflict_signaling` — a
SUCCEEDED job cannot be canceled (409) and a QUEUED job cannot be edited
(400). -/
theorem C2_witness :
    ((cancel_job true (some { status := JobStatus.SUCCEEDED })).response =
      .error (httpError 409 ("Cannot cancel job in "
        ++ (JobStatus.SUCCEEDED).value
        ++ " status. Only QUEUED or RUNNING jobs can be canceled.")) ∧
     (cancel_job true (some { status := JobStatus.SUCCEEDED })).jobRow =
      some { status := JobStatus.SUCCEEDED }) ∧
    ((update_job_steps "j" true
        { job := some { status := JobStatus.QUEUED }, ledger := [], storedKeys := [] }
        (Json.obj []) none true).response =
      .error (httpError 400 ("Cannot edit steps for job in "
        ++ (JobStatus.QUEUED).value
        ++ " status. Job must be SUCCEEDED.")) ∧
     (update_job_steps "j" true
        { job := some { status := JobStatus.QUEUED }, ledger := [], storedKeys := [] }
        (Json.obj []) none true).state =
      { job := some { status := JobStatus.QUEUED }, ledger := [], storedKeys := [] }) :=
  ⟨(C2_conflict_signaling "j" { status := JobStatus.SUCCEEDED }
      { job := none, ledger := [], storedKeys := [] }
      (Json.obj []) none "t" "m" true true).1 (by decide) (by decide),
   (C2_conflict_signaling "j" { status := JobStatus.QUEUED }
      { job := some { status := JobStatus.QUEUED }, ledger := [], storedKeys := [] }
      (Json.obj []) none "t" "m" true true).2.2.1 (by decide) rfl⟩

/-- C2 counterexample: the wrong-state rejection of the edit operation
carries status code 400 with no categorical error code — exactly the
shape of the malformed-request rejection — so the conflict outcome is not
distinguishable from the malformed-request outcome for edit, refuting
the claim for all four operations. -/
theorem C2_counterexample :
    (update_job_steps "j" true
      { job := some { status := JobStatus.QUEUED }, ledger := [], storedKeys := [] }
      (Json.obj []) none true).response =
      .error { code := 400,
               detail := "Cannot edit steps for job in QUEUED status. Job must be SUCCEEDED.",
               errorCode := none } ∧
    (update_job_steps "j" false
      { job := some { status := JobStatus.QUEUED }, ledger := [], storedKeys := [] }
      (Json.obj []) none true).response =
      .error { code := 400, detail := "Invalid job ID format", errorCode := none } := by
  exact ⟨rfl, rfl⟩

/-! ### Claim C3 -/

/-- C3 (amended). The invariant "stage is null whenever status is not
RUNNING" is established by create and preserved by retry, regenerate and
edit — but cancel leaves the stage column untouched, so canceling a
RUNNING job whose stage is non-null yields a CANCELED job that still
carries that stage label. -/
theorem C3_stage_null_outside_running :
    (∀ jobId traceId req c j,
      (create_job jobId traceId req c).jobRow = some j → j.stage = none)
  ∧ (∀ validId job tr msg dOk j, StageInv job →
      (retry_job validId (some job) tr dOk msg).jobRow = some j → StageInv j)
  ∧ (∀ validId job tr j, StageInv job →
      (regenerate_pptx validId (some job) tr).jobRow = some j → StageInv j)
  ∧ (∀ jobId validId st d note up j, (∀ jb, st.job = some jb → StageInv jb) →
      (update_job_steps jobId validId st d note up).state.job = some j → StageInv j)
  ∧ (∀ validId job j,
      (cancel_job validId (some job)).jobRow = some j → j.stage = job.stage) := by
  refine ⟨?_, ?_, ?_, ?_, ?_⟩
  · intro jobId traceId req c j h
    by_cases hmem : extOf (effectiveFilename req.filename) ∈ ALLOWED_VIDEO_EXTENSIONS <;>
      by_cases hlt : maxVideoSizeBytes < req.fileSize <;>
      rcases hu : c.uploadOk with _ | _ <;>
      rcases hd : c.dispatchOk with _ | _ <;>
      simp_all [create_job] <;> (subst h; simp)
  · intro validId job tr msg dOk j hinv h
    cases validId <;> cases hjs : job.status <;>
      rcases hiv : job.inputVideoUri with _ | u <;> cases dOk <;>
      simp_all [retry_job, StageInv] <;> (subst h; simp [StageInv])
  · intro validId job tr j hinv h
    cases validId <;> cases hjs : job.status <;>
      rcases hfr : job.framesPrefixUri with _ | u <;>
      rcases hsj : job.stepsJsonUri with _ | v <;>
      simp_all [regenerate_pptx, StageInv] <;> (subst h; simp [StageInv])
  · intro jobId validId st d note up j hinv h
    rcases hjb : st.job with _ | jb
    · cases validId <;> simp_all [update_job_steps]
    · cases validId <;> cases hjs : jb.status <;>
        rcases hv : validate_steps_json d with _ | _ <;> cases up <;>
        simp_all [update_job_steps, StageInv] <;> (subst h; simp_all [StageInv])
  · intro validId job j h
    cases validId <;> cases hjs : job.status <;>
      simp_all [cancel_job] <;> (subst h; simp)

/-- C3 witness: through `C3_stage_null_outside_running`, a cancel keeps
the stage column exactly as it was. -/
theorem C3_witness :
    (({ status := JobStatus.CANCELED, stage := some "TRANSCRIBE" } : Job).stage =
      ({ status := JobStatus.RUNNING, stage := some "TRANSCRIBE" } : Job).stage) :=
  C3_stage_null_outside_running.2.2.2.2 true
    { status := JobStatus.RUNNING, stage := some "TRANSCRIBE" }
    { status := JobStatus.CANCELED, stage := some "TRANSCRIBE" } rfl

/-- C3 counterexample: canceling a RUNNING job with stage "TRANSCRIBE"
leaves a CANCELED job whose stage is still "TRANSCRIBE", not null —
refuting "canceling a RUNNING job leaves the resulting CANCELED job with
stage null". -/
theorem C3_counterexample :
    (cancel_job true (some { status := JobStatus.RUNNING, stage := some "TRANSCRIBE" })).jobRow =
      some { status := JobStatus.CANCELED, stage := some "TRANSCRIBE" } ∧
    Option.bind (cancel_job true
      (some { status := JobStatus.RUNNING, stage := some "TRANSCRIBE" })).jobRow
      Job.stage ≠ none := by
  exact ⟨rfl, by decide⟩

/-! ### Claim C6 -/

/-- C6 (amended). The invariant "status = FAILED iff error_code is
non-null, and error_message is non-null only when FAILED" is established
by create and preserved by cancel, retry, regenerate and edit; the
operations that set FAILED populate error_code and error_message, and
retry, which leaves FAILED, clears them. (trace_id, by contrast, is
populated in every state.) -/
theorem C6_error_code_iff_failed :
    (∀ jobId traceId req c j,
      (create_job jobId traceId req c).jobRow = some j → ErrInv j)
  ∧ (∀ validId job j, ErrInv job →
      (cancel_job validId (some job)).jobRow = some j → ErrInv j)
  ∧ (∀ validId job tr msg dOk j, ErrInv job →
      (retry_job validId (some job) tr dOk msg).jobRow = some j → ErrInv j)
  ∧ (∀ validId job tr j, ErrInv job →
      (regenerate_pptx validId (some job) tr).jobRow = some j → ErrInv j)
  ∧ (∀ jobId validId st d note up j, (∀ jb, st.job = some jb → ErrInv jb) →
      (update_job_steps jobId validId st d note up).state.job = some j → ErrInv j) := by
  refine ⟨?_, ?_, ?_, ?_, ?_⟩
  · intro jobId traceId req c j h
    by_cases hmem : extOf (effectiveFilename req.filename) ∈ ALLOWED_VIDEO_EXTENSIONS <;>
      by_cases hlt : maxVideoSizeBytes < req.fileSize <;>
      rcases hu : c.uploadOk with _ | _ <;>
      rcases hd : c.dispatchOk with _ | _ <;>
      simp_all [create_job, ErrInv] <;> (subst h; simp [ErrInv])
  · intro validId job j hinv h
    cases validId <;> cases hjs : job.status <;>
      simp_all [cancel_job, ErrInv] <;> (subst h; simp_all [ErrInv])
  · intro validId job tr msg dOk j hinv h
    cases validId <;> cases hjs : job.status <;>
      rcases hiv : job.inputVideoUri with _ | u <;> cases dOk <;>
      simp_all [retry_job, ErrInv] <;> (subst h; simp_all [ErrInv])
  · intro validId job tr j hinv h
    cases validId <;> cases hjs : job.status <;>
      rcases hfr : job.framesPrefixUri with _ | u <;>
      rcases hsj : job.stepsJsonUri with _ | v <;>
      simp_all [regenerate_pptx, ErrInv] <;> (subst h; simp_all [ErrInv])
  · intro jobId validId st d note up j hinv h
    rcases hjb : st.job with _ | jb
    · cases validId <;> simp_all [update_job_steps]
    · cases validId <;> cases hjs : jb.status <;>
        rcases hv : validate_steps_json d with _ | _ <;> cases up <;>
        simp_all [update_job_steps, ErrInv] <;> (subst h; simp_all [ErrInv])

/-- C6 witness: `C6_error_code_iff_failed` applied to a concrete cancel of
a RUNNING job. -/
theorem C6_witness :
    ErrInv { status := JobStatus.CANCELED, stage := some "TRANSCRIBE" } :=
  C6_error_code_iff_failed.2.1 true
    { status := JobStatus.RUNNING, stage := some "TRANSCRIBE" }
    { status := JobStatus.CANCELED, stage := some "TRANSCRIBE" }
    (by constructor <;> decide) rfl

/-- C6 counterexample: a freshly created (QUEUED, non-FAILED) job already
carries a non-null trace_id — refuting "the other error fields are
populated only in the FAILED state" under §3's listing of trace_id among
the error fields. -/
theorem C6_counterexample :
    Option.map Job.status (create_job "job1" "t1"
      { filename := some "demo.mp4", fileSize := 5 }
      { uploadOk := true, dispatchOk := true, deleteOk := true }).jobRow =
      some JobStatus.QUEUED ∧
    Option.bind (create_job "job1" "t1"
      { filename := some "demo.mp4", fileSize := 5 }
      { uploadOk := true, dispatchOk := true, deleteOk := true }).jobRow
      Job.traceId = some "t1" := by
  exact ⟨rfl, rfl⟩

/-! ### Claim C8 -/

/-- C8. An edit whose step-data fails schema validation returns the
SchemaInvalid condition (400 with error_code STEPS_SCHEMA_INVALID) and
applies nothing at all: the returned state — Job row including
current_steps_version, ledger, and stored artifact keys — is exactly the
state before the call. -/
theorem C8_schema_invalid_edit_applies_nothing (jobId : String) (st : StepsState)
    (d : Json) (note : Option String) (up : Bool) (job : Job)
    (hjob : st.job = some job) (hst : job.status = JobStatus.SUCCEEDED)
    (hval : validate_steps_json d = false) :
    (update_job_steps jobId true st d note up).response =
      .error { code := 400, detail := "Schema validation failed",
               errorCode := some "STEPS_SCHEMA_INVALID" } ∧
    (update_job_steps jobId true st d note up).state = st := by
  simp [update_job_steps, hjob, hst, hval]

/-- C8 witness: Scenario C — an edit whose document lacks the `steps`
field is rejected as SchemaInvalid and leaves the state untouched. -/
theorem C8_witness :
    (update_job_steps "j" true
      { job := some { status := JobStatus.SUCCEEDED }, ledger := [], storedKeys := [] }
      (Json.obj []) none true).response =
      .error { code := 400, detail := "Schema validation failed",
               errorCode := some "STEPS_SCHEMA_INVALID" } ∧
    (update_job_steps "j" true
      { job := some { status := JobStatus.SUCCEEDED }, ledger := [], storedKeys := [] }
      (Json.obj []) none true).state =
      { job := some { status := JobStatus.SUCCEEDED }, ledger := [], storedKeys := [] } :=
  C8_schema_invalid_edit_applies_nothing "j"
    { job := some { status := JobStatus.SUCCEEDED }, ledger := [], storedKeys := [] }
    (Json.obj []) none true { status := JobStatus.SUCCEEDED } rfl rfl (by decide)

/-! ### Claim C9 -/

/-- C9. Retry of a FAILED job whose input reference is present moves it to
QUEUED with error_code/error_message cleared, progress 0, stage null, the
freshly generated trace id stored (hence different from the previous one
whenever the generated id differs), and re-dispatches the full pipeline
task; with no input reference it rejects with a 400 precondition error
and the job stays as it was (FAILED, not QUEUED). -/
theorem C9_retry_behavior (job : Job) (tr msg : String) (dOk : Bool)
    (hfail : job.status = JobStatus.FAILED) :
    (job.inputVideoUri ≠ none → dOk = true →
      ∃ j, (retry_job true (some job) tr dOk msg).response = .ok tr ∧
        (retry_job true (some job) tr dOk msg).jobRow = some j ∧
        j.status = JobStatus.QUEUED ∧ j.errorCode = none ∧ j.errorMessage = none ∧
        j.progress = 0 ∧ j.stage = none ∧ j.traceId = some tr ∧
        (some tr ≠ job.traceId → j.traceId ≠ job.traceId) ∧
        (retry_job true (some job) tr dOk msg).dispatched =
          ["app.workers.tasks.process_video"])
  ∧ (job.inputVideoUri = none →
      (retry_job true (some job) tr dOk msg).response =
        .error (httpError 400 "Cannot retry job: input video not found") ∧
      (retry_job true (some job) tr dOk msg).jobRow = some job) := by
  refine ⟨fun hiv hd => ?_, fun hiv => ?_⟩
  · rcases hu : job.inputVideoUri with _ | u
    · exact absurd hu hiv
    · simp [retry_job, hfail, hu, hd]
  · simp [retry_job, hfail, hiv]

/-- C9 witness: Scenario D — a FAILED job with error_code QUEUE_ERROR and
trace id t0 is retried and ends QUEUED with cleared error fields and the
new trace id t1. -/
theorem C9_witness :
    ∃ j, (retry_job true (some failedJobD) "t1" true "m").response = .ok "t1" ∧
      (retry_job true (some failedJobD) "t1" true "m").jobRow = some j ∧
      j.status = JobStatus.QUEUED ∧ j.errorCode = none ∧ j.errorMessage = none ∧
      j.progress = 0 ∧ j.stage = none ∧ j.traceId = some "t1" ∧
      (some "t1" ≠ failedJobD.traceId → j.traceId ≠ failedJobD.traceId) ∧
      (retry_job true (some failedJobD) "t1" true "m").dispatched =
        ["app.workers.tasks.process_video"] :=
  (C9_retry_behavior failedJobD "t1" "m" true rfl).1 (by decide) rfl

/-! ### Claim C10 -/

/-- Python `os.path.basename` leaves a name unchanged exactly when the name
contains no slash. -/
theorem basename_eq_self_iff (s : String) :
    basename s = s ↔ ∀ ch ∈ s.data, ch ≠ '/' := by
  rw [basename, String.ext_iff]
  show (s.data.reverse.takeWhile (fun c => c ≠ '/')).reverse = s.data ↔ _
  rw [← List.reverse_inj]
  simp only [List.reverse_reverse]
  rw [List.takeWhile_eq_self_iff]
  simp

/-- C10. Whenever the supplied frame-file name contains a path component
(its basename differs from the name as given), `get_frame` rejects the
request with an error; whenever it succeeds, the presigned key is the
job's frames prefix followed by the bare (slash-free) filename, so the
key never escapes the frames prefix. -/
theorem C10_frame_key_path_safety (validId : Bool) (job? : Option Job)
    (frameFile : String) :
    (basename frameFile ≠ frameFile →
      ∃ e, get_frame validId job? frameFile = .error e)
  ∧ (∀ k, get_frame validId job? frameFile = .ok k →
      basename frameFile = frameFile ∧ (∀ ch ∈ frameFile.data, ch ≠ '/') ∧
      ∃ job uri, job? = some job ∧ job.framesPrefixUri = some uri ∧
        k = key_from_uri uri ++ frameFile) := by
  refine ⟨fun hneq => ?_, fun k hk => ?_⟩
  · cases validId with
    | false => exact ⟨_, rfl⟩
    | true =>
      cases job? with
      | none => exact ⟨_, rfl⟩
      | some job =>
        rcases hfr : job.framesPrefixUri with _ | uri
        · refine ⟨httpError 404 "Frames not yet generated", ?_⟩
          simp [get_frame, hfr, httpError]
        · refine ⟨httpError 404 "Frame not found", ?_⟩
          simp [get_frame, hfr, hneq, httpError]
  · cases validId with
    | false => simp [get_frame] at hk
    | true =>
      cases job? with
      | none => simp [get_frame] at hk
      | some job =>
        rcases hfr : job.framesPrefixUri with _ | uri
        · simp [get_frame, hfr] at hk
        · by_cases hb : basename frameFile = frameFile
          · have hchars := (basename_eq_self_iff frameFile).mp hb
            simp [get_frame, hfr, hb] at hk
            exact ⟨hb, hchars, job, uri, rfl, hfr, hk.symm⟩
          · simp [get_frame, hfr, hb] at hk

/-- C10 witness: through `C10_frame_key_path_safety`, a
path-bearing name `a/b` is rejected, and a bare name `x.png` presigns
the key `frames-prefix ++ x.png`. -/
theorem C10_witness :
    (∃ e, get_frame true (some framesJob) "a/b" = .error e) ∧
    (basename "x.png" = "x.png" ∧ (∀ ch ∈ "x.png".data, ch ≠ '/') ∧
      ∃ job uri, (some framesJob : Option Job) = some job ∧
        job.framesPrefixUri = some uri ∧
        "jobs/j/frames/x.png" = key_from_uri uri ++ "x.png") :=
  ⟨(C10_frame_key_path_safety true (some framesJob) "a/b").1 (by decide),
   (C10_frame_key_path_safety true (some framesJob) "x.png").2
     "jobs/j/frames/x.png" (by rfl)⟩

/-! ### Claim C7 -/

/-- One edit either leaves the state untouched (and is not counted as
accepted) or appends exactly one ledger row carrying version
`count + 1` while advancing the Job's current_steps_version to that same
number in the same returned state. -/
theorem update_job_steps_cases (jobId : String) (st : StepsState) (d : Json)
    (note : Option String) (up : Bool) :
    (isOkResp (update_job_steps jobId true st d note up).response = false ∧
      (update_job_steps jobId true st d note up).state = st) ∨
    ((update_job_steps jobId true st d note up).response = .ok (st.ledger.length + 1) ∧
      (update_job_steps jobId true st d note up).state.ledger =
        st.ledger ++ [{ version := st.ledger.length + 1, stepsJson := d,
                        editSource := "manual", editNote := note }] ∧
      ∃ job j, st.job = some job ∧
        (update_job_steps jobId true st d note up).state.job = some j ∧
        j.currentStepsVersion = st.ledger.length + 1) := by
  rcases hjb : st.job with _ | job
  · left
    simp [update_job_steps, hjb, isOkResp]
  · by_cases hst : job.status = JobStatus.SUCCEEDED
    · by_cases hv : validate_steps_json d = true
      · cases up with
        | false =>
          left
          simp [update_job_steps, hjb, hst, hv, isOkResp]
        | true =>
          right
          simp [update_job_steps, hjb, hst, hv]
      · left
        simp [update_job_steps, hjb, hst, hv, isOkResp]
    · left
      simp [update_job_steps, hjb, hst, isOkResp]

/-- Folding any sequence of edit attempts over a gapless state keeps the
ledger gapless and grows it by exactly the number of accepted attempts. -/
theorem foldl_edits_gapless (jobId : String) :
    ∀ (attempts : List EditAttempt) (st : StepsState), GaplessLedger st →
      GaplessLedger (attempts.foldl (applyEditAttempt jobId) st) ∧
      (attempts.foldl (applyEditAttempt jobId) st).ledger.length =
        st.ledger.length + acceptedCount jobId st attempts := by
  intro attempts
  induction attempts with
  | nil =>
    intro st h
    exact ⟨h, by simp [acceptedCount]⟩
  | cons a rest ih =>
    intro st h
    have hstep := update_job_steps_cases jobId st a.stepsJson a.editNote a.uploadOk
    rcases hstep with ⟨hrej, hsame⟩ | ⟨hok, hledg, job, j, hjob, hj, hver⟩
    · have hfold : (a :: rest).foldl (applyEditAttempt jobId) st =
          rest.foldl (applyEditAttempt jobId) st := by
        simp [List.foldl_cons, applyEditAttempt, hsame]
      have hacc : acceptedCount jobId st (a :: rest) =
          acceptedCount jobId st rest := by
        simp [acceptedCount, hrej, hsame]
      rw [hfold, hacc]
      exact ih st h
    · have hgap : GaplessLedger (update_job_steps jobId true st a.stepsJson
          a.editNote a.uploadOk).state := by
        unfold GaplessLedger at h ⊢
        rw [hledg]
        simp only [List.map_append, List.map_cons, List.map_nil, List.length_append,
          List.length_cons, List.length_nil]
        rw [h, List.range'_concat]
        simp [Nat.add_comm]
      have hfold : (a :: rest).foldl (applyEditAttempt jobId) st =
          rest.foldl (applyEditAttempt jobId)
            (update_job_steps jobId true st a.stepsJson a.editNote a.uploadOk).state := by
        simp [List.foldl_cons, applyEditAttempt]
      have hacc : acceptedCount jobId st (a :: rest) =
          1 + acceptedCount jobId
            (update_job_steps jobId true st a.stepsJson a.editNote a.uploadOk).state rest := by
        simp [acceptedCount, hok, isOkResp]
      have hlen : (update_job_steps jobId true st a.stepsJson
          a.editNote a.uploadOk).state.ledger.length = st.ledger.length + 1 := by
        rw [hledg]; simp
      obtain ⟨ihg, ihl⟩ := ih _ hgap
      refine ⟨by rw [hfold]; exact ihg, ?_⟩
      rw [hfold, ihl, hlen, hacc]
      omega

/-- C7. Starting from a gapless ledger, any sequence of edit attempts —
accepted appends interleaved with rejected edits — leaves the version
numbers exactly `1..N` with no gaps and no reuse, where `N` grows by the
number of accepted appends only; each accepted append is assigned version
(count of existing entries) + 1 and the Job's current_steps_version is
advanced to that number in the same atomic step, while a rejected attempt
changes nothing. -/
theorem C7_versions_dense_and_atomic (jobId : String) (attempts : List EditAttempt)
    (st : StepsState) (h : GaplessLedger st) :
    GaplessLedger (attempts.foldl (applyEditAttempt jobId) st) ∧
    (attempts.foldl (applyEditAttempt jobId) st).ledger.length =
      st.ledger.length + acceptedCount jobId st attempts ∧
    (∀ d note up v, (update_job_steps jobId true st d note up).response = .ok v →
      v = st.ledger.length + 1 ∧
      ∃ j, (update_job_steps jobId true st d note up).state.job = some j ∧
        j.currentStepsVersion = v ∧
        (update_job_steps jobId true st d note up).state.ledger.map LedgerEntry.version =
          List.range' 1 (st.ledger.length + 1)) ∧
    (∀ d note up, isOkResp (update_job_steps jobId true st d note up).response = false →
      (update_job_steps jobId true st d note up).state = st) := by
  obtain ⟨hg, hl⟩ := foldl_edits_gapless jobId attempts st h
  refine ⟨hg, hl, ?_, ?_⟩
  · intro d note up v hok
    rcases update_job_steps_cases jobId st d note up with ⟨hrej, _⟩ | ⟨hok2, hledg, job, j, hjob, hj, hver⟩
    · rw [hok] at hrej
      simp [isOkResp] at hrej
    · rw [hok] at hok2
      have hv : v = st.ledger.length + 1 := by
        simpa using congrArg (fun r => match r with | Except.ok n => n | _ => 0) hok2
      refine ⟨hv, j, hj, by rw [hver, hv], ?_⟩
      rw [hledg]
      simp only [List.map_append, List.map_cons, List.map_nil]
      rw [h, List.range'_concat]
      simp [Nat.add_comm]
  · intro d note up hrej
    rcases update_job_steps_cases jobId st d note up with ⟨_, hsame⟩ | ⟨hok2, _, _⟩
    · exact hsame
    · rw [hok2] at hrej
      simp [isOkResp] at hrej

/-- C7 witness: `C7_versions_dense_and_atomic` on a SUCCEEDED job with an
empty ledger, one accepted edit followed by one rejected edit: the ledger
ends gapless with exactly one row. -/
theorem C7_witness :
    GaplessLedger ([{ stepsJson := sampleDoc "01:30", editNote := none, uploadOk := true },
        { stepsJson := Json.obj [], editNote := none, uploadOk := true }].foldl
      (applyEditAttempt "j")
      { job := some { status := JobStatus.SUCCEEDED }, ledger := [], storedKeys := [] }) ∧
    ([{ stepsJson := sampleDoc "01:30", editNote := none, uploadOk := true },
        { stepsJson := Json.obj [], editNote := none, uploadOk := true }].foldl
      (applyEditAttempt "j")
      { job := some { status := JobStatus.SUCCEEDED }, ledger := [], storedKeys := [] }).ledger.length =
      ({ job := some { status := JobStatus.SUCCEEDED }, ledger := [],
         storedKeys := [] } : StepsState).ledger.length +
        acceptedCount "j"
          { job := some { status := JobStatus.SUCCEEDED }, ledger := [], storedKeys := [] }
          [{ stepsJson := sampleDoc "01:30", editNote := none, uploadOk := true },
           { stepsJson := Json.obj [], editNote := none, uploadOk := true }] :=
  ⟨(C7_versions_dense_and_atomic "j"
      [{ stepsJson := sampleDoc "01:30", editNote := none, uploadOk := true },
       { stepsJson := Json.obj [], editNote := none, uploadOk := true }]
      { job := some { status := JobStatus.SUCCEEDED }, ledger := [], storedKeys := [] }
      rfl).1,
   (C7_versions_dense_and_atomic "j"
      [{ stepsJson := sampleDoc "01:30", editNote := none, uploadOk := true },
       { stepsJson := Json.obj [], editNote := none, uploadOk := true }]
      { job := some { status := JobStatus.SUCCEEDED }, ledger := [], storedKeys := [] }
      rfl).2.1⟩

end ManualStudio
